import Mathlib

/-!
Shallow embedding of `resources/sys_patch/sys_patch_auto.py`
(class `AutomaticSysPatch`) from OpenCore-Legacy-Patcher.

External collaborators (update probe, seal probe, patch-detection probe,
disk probes, dialog prompts, elevated executor) are modelled as inputs in
environment records; observable actions (prompts, probe queries, elevated
commands, hand-offs) are modelled as effect traces; privileged filesystem
mutations are modelled as explicit state passing on a record of the
filesystem locations the installer touches.
-/

/-- Python `s.startswith(p)`: is `p` a prefix of `s`. -/
def pyStartsWith (p s : String) : Bool :=
  p.data.isPrefixOf s.data

/-- Python `s.strip(chars)`: remove leading and trailing characters that
belong to the character set `cs`. -/
def pyStrip (cs : List Char) (s : List Char) : List Char :=
  ((s.dropWhile (· ∈ cs)).reverse.dropWhile (· ∈ cs)).reverse

/-- Python `s.split(sep)` for a one-character separator `sep` (the source
splits on `"s"`): always returns a non-empty list of fragments. -/
def pySplitChar (sep : Char) : List Char → List (List Char)
  | [] => [[]]
  | c :: rest =>
    let r := pySplitChar sep rest
    if c = sep then [] :: r
    else
      match r with
      | [] => [[c]]
      | h :: t => (c :: h) :: t

/-- Python `a in b` on strings: substring containment. -/
def pyInStr (a b : List Char) : Bool :=
  decide (a <:+: b)

/--
`root_disk` computation of `_determine_if_boot_matches` (lines 206-207):
`root_disk = self.constants.booted_oc_disk.strip("disk")`;
`root_disk = "disk" + root_disk.split("s")[0]`.
-/
def normalize_root_disk (bootedOCDisk : String) : List Char :=
  "disk".data ++ (pySplitChar 's' (pyStrip "disk".data bootedOCDisk.data)).headD []

/-- Observable actions of `_determine_if_boot_matches`. -/
inductive BEffect
  /-- `utilities.get_disk_path()` query. -/
  | getDiskPathQuery
  /-- `utilities.find_apfs_physical_volume(...)` query. -/
  | physicalStoresQuery
  /-- `diskutil info -plist <disk>` lookup. -/
  | diskInfoQuery (disk : List Char)
  /-- osascript relocation dialog (`display dialog "... install to disk?"`). -/
  | promptRelocate
  /-- `self.constants.start_build_install = True`. -/
  | setStartBuildInstall
  /-- hand-off to `gui_entry` with `BUILD_OC`. -/
  | launchBuildOC
  deriving DecidableEq

/-- Inputs consumed by `_determine_if_boot_matches`: configuration state and
the results the external probes and the user dialog would return. -/
structure BootEnv where
  /-- `global_settings...read_property("AutoPatch_Notify_Mismatched_Disks")`;
  `none` models an unset property (Python `None`). -/
  notifyMismatchedPref : Option Bool
  /-- `self.constants.host_is_hackintosh`. -/
  hostIsHackintosh : Bool
  /-- `self.constants.booted_oc_disk`; `""` models a falsy value. -/
  bootedOCDisk : String
  /-- result of `utilities.find_apfs_physical_volume(...)`. -/
  physicalStores : List String
  /-- `diskutil` plist lookup of `"Ejectable"`; `none` models an absent key
  (the Python code reaches it through `disk_info["Ejectable"]` and catches
  `KeyError`). -/
  ejectable : Option Bool
  /-- exit code of the osascript relocation dialog. -/
  promptReturncode : Nat

/--
`_determine_if_boot_matches` (lines 180-253), as the trace of observable
actions it performs. Logging is not modelled.
-/
def determine_if_boot_matches (env : BootEnv) : List BEffect :=
  if env.notifyMismatchedPref = some false then []
  else if env.hostIsHackintosh = true then []
  else if env.bootedOCDisk.data = [] then []
  else
    let root_disk := normalize_root_disk env.bootedOCDisk
    let pre : List BEffect := [.getDiskPathQuery, .physicalStoresQuery]
    if env.physicalStores.any (fun disk => pyInStr root_disk disk.data) then
      pre
    else
      let pre2 := pre ++ [.diskInfoQuery root_disk]
      match env.ejectable with
      | none => pre2
      | some false => pre2
      | some true =>
        pre2 ++ [.promptRelocate] ++
          (if env.promptReturncode = 0 then [.setStartBuildInstall, .launchBuildOC] else [])

/-- Observable actions of `_determine_if_versions_match`. -/
inductive VEffect
  /-- `updates.CheckBinaryUpdates(...).check_if_newer(oclp_version)` query. -/
  | newerComparatorQuery (version : String)
  /-- osascript outdated-bootloader dialog. -/
  | promptUpdateBootloader
  /-- `self.constants.start_build_install = True`. -/
  | setStartBuildInstall
  /-- hand-off to `gui_entry` with `BUILD_OC`. -/
  | launchBuildOC
  deriving DecidableEq

/-- Inputs consumed by `_determine_if_versions_match`. -/
structure VersionEnv where
  /-- `self.constants.computer.oclp_version` (booted build). -/
  oclpVersion : Option String
  /-- `self.constants.patcher_version` (installed app). -/
  patcherVersion : String
  /-- `self.constants.special_build`. -/
  specialBuild : Bool
  /-- result of the update probe's is-newer comparator, as a function of the
  version it is asked about. -/
  checkIfNewer : String → Bool
  /-- exit code of the osascript outdated-bootloader dialog. -/
  promptReturncode : Nat

/--
`_determine_if_versions_match` (lines 131-177): the returned Bool together
with the trace of observable actions. Logging is not modelled.
-/
def determine_if_versions_match (env : VersionEnv) : Bool × List VEffect :=
  match env.oclpVersion with
  | none => (true, [])
  | some booted =>
    if booted = env.patcherVersion then (true, [])
    else if env.specialBuild = true then (false, [])
    else if env.checkIfNewer booted then (true, [.newerComparatorQuery booted])
    else
      let pre : List VEffect := [.newerComparatorQuery booted, .promptUpdateBootloader]
      if env.promptReturncode = 0 then
        (false, pre ++ [.setStartBuildInstall, .launchBuildOC])
      else (false, pre)

/-- Observable actions of `start_auto_patch`. -/
inductive APEffect
  /-- wx three-way update dialog. -/
  | updatePrompt (version : String)
  /-- hand-off to `gui_entry` with `UPDATE_APP`. -/
  | launchUpdateApp
  /-- `webbrowser.open(dict["Github Link"])`. -/
  | openBrowser (link : String)
  /-- osascript patch-confirmation dialog (`"Would you like to apply these patches?"`). -/
  | patchConfirmPrompt
  /-- elevated `do shell script "... --gui_patch" with administrator privileges`. -/
  | runElevatedPatch
  /-- entering step 5: the call `self._determine_if_versions_match()` (line 127). -/
  | checkVersions
  /-- the call `self._determine_if_boot_matches()` (line 128). -/
  | checkBootDisk
  deriving DecidableEq

/-- `UpdateInfo`: result of `updates.CheckBinaryUpdates(...).check_binary_updates()`
when an update exists. -/
structure UpdateInfo where
  version : String
  githubLink : String

/-- User choice in the wx update dialog (`Download and install` /
`View on Github` / `Ignore`). -/
inductive UpdateResponse
  | yes
  | no
  | cancel

/-- Inputs consumed by `start_auto_patch`. -/
structure AutoPatchEnv where
  /-- `self.constants.wxpython_variant`. -/
  wxpythonVariant : Bool
  /-- update probe result (`check_binary_updates()`); `none` models a falsy dict. -/
  updateInfo : Option UpdateInfo
  /-- user's choice in the update dialog, consulted only when an update exists. -/
  updateResponse : UpdateResponse
  /-- `utilities.check_seal()`. -/
  sealIntact : Bool
  /-- `DetectRootPatch(...).detect_patch_set()`: a PatchReport, an ordered
  mapping from patch name to boolean, modelled as an association list. -/
  patchReport : List (String × Bool)
  /-- exit code of the osascript patch-confirmation dialog. -/
  confirmReturncode : Nat
  /-- inputs of the nested `_determine_if_versions_match` call. -/
  venv : VersionEnv

/-- Python `patches["Validation: Patching Possible"]` lookup; `none` models a
missing key. The detection probe always supplies this key, so the `KeyError`
raised on a missing key is not modelled. -/
def lookupKey (report : List (String × Bool)) (k : String) : Option Bool :=
  (report.find? (fun kv => kv.1 = k)).map (·.2)

/-- Line 72 membership test applied to one report entry: a key counts toward
actionability when it is outside the `Settings`/`Validation` prefixes and its
value is `True`. -/
def actionable_entry (kv : String × Bool) : Bool :=
  !(pyStartsWith "Settings" kv.1) && !(pyStartsWith "Validation" kv.1) && kv.2

/--
`start_auto_patch` (lines 26-128), as the trace of observable actions it
performs. Lines 71-73 replace `patches` by `[]` when no non-`Settings`,
non-`Validation` key is true, so `if patches:` takes the else branch exactly
when `any actionable_entry` is false. Both the "No patches detected" branch
(line 123) and the "seal not intact" branch (line 125) fall through to
line 127. Logging is not modelled.
-/
def start_auto_patch (env : AutoPatchEnv) : List APEffect :=
  if env.wxpythonVariant = false then []
  else
    match env.updateInfo with
    | some info =>
      [.updatePrompt info.version] ++
        (match env.updateResponse with
         | .yes => [.launchUpdateApp]
         | .no => [.openBrowser info.githubLink]
         | .cancel => [])
    | none =>
      let tail : List APEffect :=
        [.checkVersions] ++
          (if (determine_if_versions_match env.venv).1 then [.checkBootDisk] else [])
      if env.sealIntact = true then
        if env.patchReport.any actionable_entry then
          if lookupKey env.patchReport "Validation: Patching Possible" = some false then []
          else
            [.patchConfirmPrompt] ++
              (if env.confirmReturncode = 0 then [.runElevatedPatch] else [])
        else tail
      else tail

/-- Content, permission bits and owner of an installed descriptor file. -/
structure FileMeta where
  content : String
  perm : Nat
  owner : String
  deriving DecidableEq

/-- Parsed content of the RSRMonitor launch-daemon plist: the two fields the
code rewrites plus the remaining entries, which it leaves untouched. -/
structure DaemonPlist where
  programArguments : List String
  watchPaths : List String
  rest : List (String × String)
  deriving DecidableEq

/-- Installed daemon descriptor file: plist content, permission bits, owner. -/
structure DaemonFileMeta where
  content : DaemonPlist
  perm : Nat
  owner : String
  deriving DecidableEq

/-- State of one kext bundle in `/Library/Extensions` as seen by the scan of
`_create_rsr_monitor_daemon`: its `Contents/Info.plist` may be missing, may
fail to parse, or parses to a plist with the given top-level keys. -/
inductive KextInfo
  | missing
  | unparsable
  | parsed (keys : List String)
  deriving DecidableEq

/-- A kext bundle in `/Library/Extensions`. -/
structure Kext where
  name : String
  info : KextInfo
  deriving DecidableEq

/-- The filesystem locations `install_auto_patcher_launch_agent` and
`_create_rsr_monitor_daemon` read or write. -/
structure FSState where
  /-- existence of the relative path `Library/Application Support/Dortania`
  (line 279 checks a path with no leading slash, relative to the process's
  working directory, while `mkdir -p` targets the absolute path). -/
  relCwdSupportDirExists : Bool
  /-- existence of `/Library/Application Support/Dortania`. -/
  supportDirExists : Bool
  /-- content of the staged bundle at
  `/Library/Application Support/Dortania/OpenCore-Patcher.app`, when present. -/
  bundle : Option String
  /-- whether the staged bundle still carries extended attributes
  (`xattr -cr` clears them). -/
  bundleQuarantined : Bool
  /-- existence of `/Library/LaunchAgents/`. -/
  launchAgentsDirExists : Bool
  /-- the agent descriptor
  `/Library/LaunchAgents/com.dortania.opencore-legacy-patcher.auto-patch.plist`. -/
  agentFile : Option FileMeta
  /-- existence of `/Library/LaunchDaemons/`. -/
  launchDaemonsDirExists : Bool
  /-- the daemon descriptor
  `/Library/LaunchDaemons/com.dortania.opencore-legacy-patcher.rsr-monitor.plist`. -/
  daemonFile : Option DaemonFileMeta
  /-- the symlink at `/Applications/OpenCore-Patcher.app`, when present,
  with its target. -/
  appAlias : Option String
  /-- the daemon descriptor template at
  `self.constants.rsr_monitor_launch_daemon_path`, which
  `_create_rsr_monitor_daemon` reads and rewrites in place. -/
  daemonTemplate : DaemonPlist
  /-- existence of `/System/Volumes/Preboot/{UUID}/cryptex1/current/OS.dmg`. -/
  cryptexExists : Bool
  /-- bundles matched by `Path("/Library/Extensions").glob("*.kext")`. -/
  kexts : List Kext
  deriving DecidableEq

/-- The members of `self.constants` the installer reads, plus the content at
the source locations its copy commands read from. -/
structure Consts where
  /-- `self.constants.launcher_script`. -/
  launcherScript : Option String
  /-- `self.constants.launcher_binary`. -/
  launcherBinary : String
  /-- content of the source application bundle that `ditto` copies. -/
  sourceBundleContent : String
  /-- content of the agent plist at `self.constants.auto_patch_launch_agent_path`. -/
  agentSourceContent : String
  /-- permission bits a fresh `cp` target receives before `chmod 644`. -/
  cpDefaultPerm : Nat
  /-- owner a fresh elevated `cp` target receives before `chown root:wheel`. -/
  cpDefaultOwner : String
  /-- `utilities.get_preboot_uuid()`. -/
  prebootUUID : String

/-- Elevated or plain commands the installer runs, as observable effects. -/
inductive InstallEffect
  | mkdirSupport
  | rmBundle
  | dittoBundle
  | mvBundle
  | xattrClear
  | rmAgentFile
  | mkdirLaunchAgents
  | cpAgentFile
  | chmodAgentFile
  | chownAgentFile
  | rmDaemonFile
  | mkdirLaunchDaemons
  | cpDaemonFile
  | chmodDaemonFile
  | chownDaemonFile
  | lnAlias
  deriving DecidableEq

/-- `chmod` on an installed descriptor file. -/
def chmodMeta (p : Nat) : Option FileMeta → Option FileMeta
  | some m => some { m with perm := p }
  | none => none

/-- `chown` on an installed descriptor file. -/
def chownMeta (o : String) : Option FileMeta → Option FileMeta
  | some m => some { m with owner := o }
  | none => none

/-- `chmod` on the installed daemon descriptor file. -/
def chmodDaemonMeta (p : Nat) : Option DaemonFileMeta → Option DaemonFileMeta
  | some m => some { m with perm := p }
  | none => none

/-- `chown` on the installed daemon descriptor file. -/
def chownDaemonMeta (o : String) : Option DaemonFileMeta → Option DaemonFileMeta
  | some m => some { m with owner := o }
  | none => none

/-- `cryptex_path` of `_create_rsr_monitor_daemon` (line 346). -/
def cryptex_path (c : Consts) : String :=
  "/System/Volumes/Preboot/" ++ c.prebootUUID ++ "/cryptex1/current/OS.dmg"

/-- The kext-scan loop of `_create_rsr_monitor_daemon` (lines 351-363): skip a
bundle whose `Info.plist` is missing, skip (after logging) one whose plist
fails to parse, skip one without the `GPUCompanionBundles` key, and collect
the names of the rest. -/
def scan_kexts : List Kext → List String
  | [] => []
  | k :: rest =>
    match k.info with
    | .missing => scan_kexts rest
    | .unparsable => scan_kexts rest
    | .parsed keys =>
      if keys.contains "GPUCompanionBundles" then k.name :: scan_kexts rest
      else scan_kexts rest

/-- A kext bundle whose descriptor parses and contains the
`GPUCompanionBundles` marker key. -/
def kext_has_marker (k : Kext) : Bool :=
  match k.info with
  | .parsed keys => keys.contains "GPUCompanionBundles"
  | _ => false

/--
`_create_rsr_monitor_daemon` (lines 341-388): returns whether the RSRMonitor
daemon is needed, and the filesystem state after the call, with the template
plist rewritten in place when it is.
-/
def create_rsr_monitor_daemon (c : Consts) (fs : FSState) : Bool × FSState :=
  if fs.cryptexExists = false then (false, fs)
  else
    let kexts := scan_kexts fs.kexts
    if kexts.isEmpty then (false, fs)
    else
      let arguments := ["rm", "-Rfv"] ++ kexts.map (fun kext => "/Library/Extensions/" ++ kext)
      let plist := { fs.daemonTemplate with
                       programArguments := arguments
                       watchPaths := [cryptex_path c] }
      (true, { fs with daemonTemplate := plist })

/-- Lines 279-281: create the support directory when the (relative-path)
existence check fails. -/
def step_mkdir_support (fs : FSState) : FSState × List InstallEffect :=
  if fs.relCwdSupportDirExists then (fs, [])
  else ({ fs with supportDirExists := true }, [.mkdirSupport])

/-- Lines 283-300: delete any existing staged bundle, `ditto` the source
bundle over, rename it when the canonical name is absent after the copy, and
strip extended attributes. -/
def step_stage_bundle (c : Consts) (fs : FSState) : FSState × List InstallEffect :=
  let (fs1, e1) :=
    match fs.bundle with
    | some _ => ({ fs with bundle := none }, [InstallEffect.rmBundle])
    | none => (fs, [])
  let fs2 := { fs1 with bundle := some c.sourceBundleContent }
  let e2 := e1 ++ [InstallEffect.dittoBundle]
  let (fs3, e3) :=
    match fs2.bundle with
    | none => ({ fs2 with bundle := some c.sourceBundleContent }, e2 ++ [InstallEffect.mvBundle])
    | some _ => (fs2, e2)
  ({ fs3 with bundleQuarantined := false }, e3 ++ [InstallEffect.xattrClear])

/-- Lines 302-315: delete any existing agent plist, create
`/Library/LaunchAgents/` when absent, copy the agent plist over, then
`chmod 644` and `chown root:wheel` it. -/
def step_agent (c : Consts) (fs : FSState) : FSState × List InstallEffect :=
  let (fs1, e1) :=
    match fs.agentFile with
    | some _ => ({ fs with agentFile := none }, [InstallEffect.rmAgentFile])
    | none => (fs, [])
  let (fs2, e2) :=
    if fs1.launchAgentsDirExists then (fs1, e1)
    else ({ fs1 with launchAgentsDirExists := true }, e1 ++ [InstallEffect.mkdirLaunchAgents])
  let fs3 := { fs2 with agentFile := some ⟨c.agentSourceContent, c.cpDefaultPerm, c.cpDefaultOwner⟩ }
  let fs4 := { fs3 with agentFile := chmodMeta 644 fs3.agentFile }
  let fs5 := { fs4 with agentFile := chownMeta "root:wheel" fs4.agentFile }
  (fs5, e2 ++ [InstallEffect.cpAgentFile, InstallEffect.chmodAgentFile, InstallEffect.chownAgentFile])

/-- Lines 317-331: run `_create_rsr_monitor_daemon`; when it reports the
daemon needed, delete any existing daemon plist, create
`/Library/LaunchDaemons/` when absent, copy the (rewritten) template over,
then `chmod 644` and `chown root:wheel` it. -/
def step_daemon (c : Consts) (fs : FSState) : FSState × List InstallEffect :=
  let r := create_rsr_monitor_daemon c fs
  let fs0 := r.2
  if r.1 then
    let (fs1, e1) :=
      match fs0.daemonFile with
      | some _ => ({ fs0 with daemonFile := none }, [InstallEffect.rmDaemonFile])
      | none => (fs0, [])
    let (fs2, e2) :=
      if fs1.launchDaemonsDirExists then (fs1, e1)
      else ({ fs1 with launchDaemonsDirExists := true }, e1 ++ [InstallEffect.mkdirLaunchDaemons])
    let fs3 := { fs2 with daemonFile := some ⟨fs2.daemonTemplate, c.cpDefaultPerm, c.cpDefaultOwner⟩ }
    let fs4 := { fs3 with daemonFile := chmodDaemonMeta 644 fs3.daemonFile }
    let fs5 := { fs4 with daemonFile := chownDaemonMeta "root:wheel" fs4.daemonFile }
    (fs5, e2 ++ [InstallEffect.cpDaemonFile, InstallEffect.chmodDaemonFile, InstallEffect.chownDaemonFile])
  else (fs0, [])

/-- Lines 333-338: create the `/Applications/OpenCore-Patcher.app` symlink
only when nothing exists at that path. -/
def step_alias (fs : FSState) : FSState × List InstallEffect :=
  match fs.appAlias with
  | some _ => (fs, [])
  | none =>
    ({ fs with appAlias := some "/Library/Application Support/Dortania/OpenCore-Patcher.app" },
      [InstallEffect.lnAlias])

/--
`install_auto_patcher_launch_agent` (lines 256-338): final filesystem state
and the trace of commands run. Skips entirely when running from source
(`launcher_script` set) or when the running binary already resides under
`/Library/Application Support/Dortania/`.
-/
def install_auto_patcher_launch_agent (c : Consts) (fs : FSState) :
    FSState × List InstallEffect :=
  if c.launcherScript.isSome then (fs, [])
  else if pyStartsWith "/Library/Application Support/Dortania/" c.launcherBinary then (fs, [])
  else
    let r1 := step_mkdir_support fs
    let r2 := step_stage_bundle c r1.1
    let r3 := step_agent c r2.1
    let r4 := step_daemon c r3.1
    let r5 := step_alias r4.1
    (r5.1, r1.2 ++ r2.2 ++ r3.2 ++ r4.2 ++ r5.2)

/-- Whether `_create_rsr_monitor_daemon` reports the daemon needed: the
cryptex image exists and the kext scan finds at least one marked bundle. -/
def daemon_needed (fs : FSState) : Bool :=
  fs.cryptexExists && !(scan_kexts fs.kexts).isEmpty

/-- The template plist after the in-place rewrite of lines 373-383. -/
def rewritten_template (c : Consts) (fs : FSState) : DaemonPlist :=
  { fs.daemonTemplate with
      programArguments :=
        ["rm", "-Rfv"] ++ (scan_kexts fs.kexts).map (fun kext => "/Library/Extensions/" ++ kext)
      watchPaths := [cryptex_path c] }

/-- A sample `Consts` value: the app was launched from `/Applications`, so the
installer's self-duplication guard does not fire. -/
def sampleConsts : Consts :=
  { launcherScript := none,
    launcherBinary := "/Applications/OpenCore-Patcher.app/Contents/MacOS/OpenCore-Patcher",
    sourceBundleContent := "OpenCore-Patcher.app payload",
    agentSourceContent := "auto-patch launch agent plist",
    cpDefaultPerm := 600,
    cpDefaultOwner := "root:admin",
    prebootUUID := "3D3F0A12" }

/-- A sample daemon-descriptor template. -/
def sampleTemplate : DaemonPlist :=
  { programArguments := ["/bin/true"],
    watchPaths := [],
    rest := [("Label", "com.dortania.opencore-legacy-patcher.rsr-monitor")] }

/-- A filesystem state in which every installer target is already present with
exactly the content, ownership and permissions a run of the installer
produces: the staged bundle holds the current payload, the agent descriptor
is `644`/`root:wheel`, and the alias exists. -/
def installedFS : FSState :=
  { relCwdSupportDirExists := true,
    supportDirExists := true,
    bundle := some "OpenCore-Patcher.app payload",
    bundleQuarantined := false,
    launchAgentsDirExists := true,
    agentFile := some ⟨"auto-patch launch agent plist", 644, "root:wheel"⟩,
    launchDaemonsDirExists := true,
    daemonFile := none,
    appAlias := some "/Library/Application Support/Dortania/OpenCore-Patcher.app",
    daemonTemplate := sampleTemplate,
    cryptexExists := false,
    kexts := [] }

/-- A sample decision-cycle environment: GUI build, no update available, seal
intact, and a PatchReport whose only `true` keys carry the `Settings`/
`Validation` prefixes. -/
def sampleAutoPatchEnv : AutoPatchEnv :=
  { wxpythonVariant := true,
    updateInfo := none,
    updateResponse := .cancel,
    sealIntact := true,
    patchReport :=
      [("Settings: Kernel Debug Kit missing", true),
       ("Validation: Patching Possible", true),
       ("Legacy Wireless", false),
       ("Networking: Modern Wireless", false)],
    confirmReturncode := 0,
    venv :=
      { oclpVersion := none, patcherVersion := "2.4.0", specialBuild := false,
        checkIfNewer := fun _ => false, promptReturncode := 1 } }

/- ## Theorems -/

theorem create_rsr_monitor_daemon_eq (c : Consts) (fs : FSState) :
    create_rsr_monitor_daemon c fs =
      (daemon_needed fs,
        if daemon_needed fs then { fs with daemonTemplate := rewritten_template c fs } else fs) := by
  unfold create_rsr_monitor_daemon daemon_needed rewritten_template
  cases hc : fs.cryptexExists
  · simp
  · by_cases hk : (scan_kexts fs.kexts).isEmpty <;> simp [hk]

theorem step_mkdir_support_state (fs : FSState) :
    (step_mkdir_support fs).1 =
      { fs with supportDirExists := if fs.relCwdSupportDirExists then fs.supportDirExists else true } := by
  cases fs
  unfold step_mkdir_support
  simp only []
  split <;> simp_all

theorem step_stage_bundle_state (c : Consts) (fs : FSState) :
    (step_stage_bundle c fs).1 =
      { fs with bundle := some c.sourceBundleContent, bundleQuarantined := false } := by
  unfold step_stage_bundle
  cases fs.bundle <;> simp

theorem step_agent_state (c : Consts) (fs : FSState) :
    (step_agent c fs).1 =
      { fs with agentFile := some ⟨c.agentSourceContent, 644, "root:wheel"⟩,
                launchAgentsDirExists := true } := by
  unfold step_agent
  cases fs.agentFile <;> by_cases h : fs.launchAgentsDirExists <;>
    simp [h, chmodMeta, chownMeta]

theorem step_daemon_state (c : Consts) (fs : FSState) :
    (step_daemon c fs).1 =
      if daemon_needed fs then
        { fs with daemonTemplate := rewritten_template c fs,
                  daemonFile := some ⟨rewritten_template c fs, 644, "root:wheel"⟩,
                  launchDaemonsDirExists := true }
      else fs := by
  unfold step_daemon
  rw [create_rsr_monitor_daemon_eq]
  by_cases hn : daemon_needed fs
  · cases hd : fs.daemonFile <;> by_cases hl : fs.launchDaemonsDirExists <;>
      simp [hn, hd, hl, chmodDaemonMeta, chownDaemonMeta]
  · simp [hn]

theorem step_alias_state (fs : FSState) :
    (step_alias fs).1 =
      { fs with appAlias := some (fs.appAlias.getD "/Library/Application Support/Dortania/OpenCore-Patcher.app") } := by
  cases fs with
  | mk r s b q la af ld df al dt cx kx =>
    cases al <;> simp [step_alias]

theorem install_state_closed (c : Consts) (fs : FSState)
    (h1 : c.launcherScript = none)
    (h2 : pyStartsWith "/Library/Application Support/Dortania/" c.launcherBinary = false) :
    (install_auto_patcher_launch_agent c fs).1 =
      { relCwdSupportDirExists := fs.relCwdSupportDirExists,
        supportDirExists := if fs.relCwdSupportDirExists then fs.supportDirExists else true,
        bundle := some c.sourceBundleContent,
        bundleQuarantined := false,
        launchAgentsDirExists := true,
        agentFile := some ⟨c.agentSourceContent, 644, "root:wheel"⟩,
        launchDaemonsDirExists := if daemon_needed fs then true else fs.launchDaemonsDirExists,
        daemonFile := if daemon_needed fs then some ⟨rewritten_template c fs, 644, "root:wheel"⟩ else fs.daemonFile,
        appAlias := some (fs.appAlias.getD "/Library/Application Support/Dortania/OpenCore-Patcher.app"),
        daemonTemplate := if daemon_needed fs then rewritten_template c fs else fs.daemonTemplate,
        cryptexExists := fs.cryptexExists,
        kexts := fs.kexts } := by
  unfold install_auto_patcher_launch_agent
  simp only [h1, h2, Option.isSome_none, Bool.false_eq_true, if_false,
    step_mkdir_support_state, step_stage_bundle_state, step_agent_state, step_daemon_state,
    step_alias_state]
  by_cases hr : fs.relCwdSupportDirExists <;>
    cases hc : fs.cryptexExists <;>
      cases hk : (scan_kexts fs.kexts).isEmpty <;>
        simp [daemon_needed, rewritten_template, hr, hc, hk]

theorem step_mkdir_support_effects (fs : FSState) :
    (step_mkdir_support fs).2 = if fs.relCwdSupportDirExists then [] else [.mkdirSupport] := by
  unfold step_mkdir_support
  by_cases h : fs.relCwdSupportDirExists <;> simp [h]

theorem step_stage_bundle_effects (c : Consts) (fs : FSState) :
    (step_stage_bundle c fs).2 =
      (if fs.bundle.isSome then [.rmBundle] else []) ++ [.dittoBundle, .xattrClear] := by
  unfold step_stage_bundle
  cases fs.bundle <;> simp

theorem step_agent_effects (c : Consts) (fs : FSState) :
    (step_agent c fs).2 =
      (if fs.agentFile.isSome then [.rmAgentFile] else []) ++
        (if fs.launchAgentsDirExists then [] else [.mkdirLaunchAgents]) ++
        [.cpAgentFile, .chmodAgentFile, .chownAgentFile] := by
  unfold step_agent
  cases fs.agentFile <;> by_cases h : fs.launchAgentsDirExists <;> simp [h]

theorem step_daemon_effects (c : Consts) (fs : FSState) :
    (step_daemon c fs).2 =
      if daemon_needed fs then
        (if fs.daemonFile.isSome then [.rmDaemonFile] else []) ++
          (if fs.launchDaemonsDirExists then [] else [.mkdirLaunchDaemons]) ++
          [.cpDaemonFile, .chmodDaemonFile, .chownDaemonFile]
      else [] := by
  unfold step_daemon
  rw [create_rsr_monitor_daemon_eq]
  by_cases hn : daemon_needed fs
  · cases hd : fs.daemonFile <;> by_cases hl : fs.launchDaemonsDirExists <;>
      simp [hn, hd, hl]
  · simp [hn]

theorem step_alias_effects (fs : FSState) :
    (step_alias fs).2 = if fs.appAlias.isSome then [] else [.lnAlias] := by
  unfold step_alias
  cases fs.appAlias <;> simp

theorem install_effects_closed (c : Consts) (fs : FSState)
    (h1 : c.launcherScript = none)
    (h2 : pyStartsWith "/Library/Application Support/Dortania/" c.launcherBinary = false) :
    (install_auto_patcher_launch_agent c fs).2 =
      (if fs.relCwdSupportDirExists then [] else [.mkdirSupport]) ++
        ((if fs.bundle.isSome then [.rmBundle] else []) ++ [.dittoBundle, .xattrClear]) ++
        ((if fs.agentFile.isSome then [.rmAgentFile] else []) ++
          (if fs.launchAgentsDirExists then [] else [.mkdirLaunchAgents]) ++
          [.cpAgentFile, .chmodAgentFile, .chownAgentFile]) ++
        (if daemon_needed fs then
          (if fs.daemonFile.isSome then [.rmDaemonFile] else []) ++
            (if fs.launchDaemonsDirExists then [] else [.mkdirLaunchDaemons]) ++
            [.cpDaemonFile, .chmodDaemonFile, .chownDaemonFile]
         else []) ++
        (if fs.appAlias.isSome then [] else [.lnAlias]) := by
  unfold install_auto_patcher_launch_agent
  simp only [h1, h2, Option.isSome_none, Bool.false_eq_true, if_false,
    step_mkdir_support_state, step_stage_bundle_state, step_agent_state, step_daemon_state,
    step_mkdir_support_effects, step_stage_bundle_effects, step_agent_effects,
    step_daemon_effects, step_alias_effects]
  by_cases hr : fs.relCwdSupportDirExists <;>
    cases hc : fs.cryptexExists <;>
      cases hk : (scan_kexts fs.kexts).isEmpty <;>
        simp [daemon_needed, hr, hc, hk]

/-- Claim C3: for every pair of distinct non-empty booted and installed
version strings, `_determine_if_versions_match` with `special_build = true`
returns `False`, and its trace is empty for every is-newer comparator: the
comparator is never consulted on this branch. -/
theorem versions_match_special_build_mismatch
    (booted installed : String) (f : String → Bool) (rc : Nat)
    (_hb : booted ≠ "") (_hi : installed ≠ "") (hne : booted ≠ installed) :
    determine_if_versions_match
      { oclpVersion := some booted, patcherVersion := installed,
        specialBuild := true, checkIfNewer := f, promptReturncode := rc } =
      (false, []) := by
  simp [determine_if_versions_match, hne]

/-- Witness for claim C3 at booted `0.6.8`, installed `2.4.0`, with a
comparator that always answers `true`. -/
theorem versions_match_special_build_mismatch_witness :
    ("0.6.8" : String) ≠ "" ∧ ("2.4.0" : String) ≠ "" ∧
    ("0.6.8" : String) ≠ "2.4.0" ∧
    determine_if_versions_match
      { oclpVersion := some "0.6.8", patcherVersion := "2.4.0",
        specialBuild := true, checkIfNewer := fun _ => true, promptReturncode := 0 } =
      (false, []) :=
  ⟨by decide, by decide, by decide,
    versions_match_special_build_mismatch "0.6.8" "2.4.0" (fun _ => true) 0
      (by decide) (by decide) (by decide)⟩

/-- Claim C7: when the mismatched-disk notification preference reads `False`,
`_determine_if_boot_matches` performs no observable action at all — no probe
query, no prompt, no flag — for every disk state. -/
theorem boot_check_noop_when_pref_false (env : BootEnv)
    (h : env.notifyMismatchedPref = some false) :
    determine_if_boot_matches env = [] := by
  simp [determine_if_boot_matches, h]

/-- Witness for claim C7 on a mismatched, ejectable disk state that would
otherwise prompt. -/
theorem boot_check_noop_when_pref_false_witness :
    (BootEnv.mk (some false) false "disk2s1" ["disk0s2"] (some true) 0).notifyMismatchedPref =
      some false ∧
    determine_if_boot_matches (BootEnv.mk (some false) false "disk2s1" ["disk0s2"] (some true) 0) =
      [] :=
  ⟨rfl, boot_check_noop_when_pref_false _ rfl⟩

/-- Claim C4: `_determine_if_boot_matches` presents the relocation prompt only
when the disk-info lookup contains the `Ejectable` key with value `True`;
a missing key (`KeyError`) or `Ejectable = False` never prompts. -/
theorem boot_prompt_only_when_ejectable_true (env : BootEnv)
    (h : BEffect.promptRelocate ∈ determine_if_boot_matches env) :
    env.ejectable = some true := by
  by_cases h1 : env.notifyMismatchedPref = some false
  · simp [determine_if_boot_matches, h1] at h
  · by_cases h2 : env.hostIsHackintosh = true
    · simp [determine_if_boot_matches, h1, h2] at h
    · by_cases h3 : env.bootedOCDisk.data = []
      · simp [determine_if_boot_matches, h1, h2, h3] at h
      · by_cases h4 : env.physicalStores.any
            (fun disk => pyInStr (normalize_root_disk env.bootedOCDisk) disk.data)
        · simp [determine_if_boot_matches, h1, h2, h3, h4] at h
        · cases he : env.ejectable with
          | none => simp [determine_if_boot_matches, h1, h2, h3, h4, he] at h
          | some b =>
            cases b
            · simp [determine_if_boot_matches, h1, h2, h3, h4, he] at h
            · rfl

/-- Witness for claim C4: a mismatched ejectable boot disk makes the prompt
appear, and the theorem recovers `Ejectable = True` from that. -/
theorem boot_prompt_only_when_ejectable_true_witness :
    BEffect.promptRelocate ∈
      determine_if_boot_matches (BootEnv.mk (some true) false "disk2s1" ["disk0s2"] (some true) 1) ∧
    (BootEnv.mk (some true) false "disk2s1" ["disk0s2"] (some true) 1).ejectable = some true :=
  ⟨by decide, boot_prompt_only_when_ejectable_true _ (by decide)⟩

/-- Claim C8: with booted disk `disk0s1` and physical stores
`["disk0s2", "disk1s1"]`, the booted identifier normalizes to `disk0`, which
matches `disk0s2`, and `_determine_if_boot_matches` returns after the two
disk probes with no prompt. -/
theorem boot_disk0s1_normalizes_and_matches :
    normalize_root_disk "disk0s1" = "disk0".data ∧
    pyInStr (normalize_root_disk "disk0s1") "disk0s2".data = true ∧
    determine_if_boot_matches
        (BootEnv.mk none false "disk0s1" ["disk0s2", "disk1s1"] (some true) 0) =
      [.getDiskPathQuery, .physicalStoresQuery] := by
  decide

/-- Claim C10: the boot-disk comparison is substring containment of the
normalized token in each physical-store identifier, so whenever the token
occurs as a substring of any store identifier the disks are treated as
matching and no prompt appears. -/
theorem boot_match_substring_containment (env : BootEnv)
    (h1 : env.notifyMismatchedPref ≠ some false)
    (h2 : env.hostIsHackintosh = false)
    (h3 : env.bootedOCDisk.data ≠ [])
    (h4 : ∃ d ∈ env.physicalStores, normalize_root_disk env.bootedOCDisk <:+: d.data) :
    determine_if_boot_matches env = [.getDiskPathQuery, .physicalStoresQuery] := by
  have hany : env.physicalStores.any
      (fun disk => pyInStr (normalize_root_disk env.bootedOCDisk) disk.data) = true := by
    rcases h4 with ⟨d, hd, hsub⟩
    exact List.any_eq_true.mpr ⟨d, hd, by simpa [pyInStr] using hsub⟩
  simp [determine_if_boot_matches, h1, h2, h3, hany]

/-- Witness for claim C10: normalized `disk1` (from `disk1s1`) is a substring
of the unrelated store `disk10s2`, and the prompt is suppressed even though
the disk is ejectable. -/
theorem boot_match_substring_containment_witness :
    normalize_root_disk "disk1s1" = "disk1".data ∧
    (normalize_root_disk "disk1s1" <:+: "disk10s2".data) ∧
    determine_if_boot_matches (BootEnv.mk none false "disk1s1" ["disk10s2"] (some true) 0) =
      [.getDiskPathQuery, .physicalStoresQuery] :=
  ⟨by decide, by decide,
    boot_match_substring_containment _ (by decide) rfl (by decide)
      ⟨"disk10s2", by decide, by decide⟩⟩

/-- Claim C9: the kext scan of `_create_rsr_monitor_daemon` never aborts on a
missing or unparsable descriptor and collects exactly the names of the
bundles whose descriptor parses and contains `GPUCompanionBundles`. -/
theorem scan_kexts_collects_exactly_marked (l : List Kext) :
    scan_kexts l = (l.filter kext_has_marker).map Kext.name := by
  induction l with
  | nil => rfl
  | cons k rest ih =>
    obtain ⟨name, info⟩ := k
    cases info with
    | missing => simpa [scan_kexts, kext_has_marker] using ih
    | unparsable => simpa [scan_kexts, kext_has_marker] using ih
    | parsed keys =>
      by_cases hm : "GPUCompanionBundles" ∈ keys <;>
        simp [scan_kexts, kext_has_marker, hm, ih]

/-- Claim C6: when the kext scan finds no bundle with the
`GPUCompanionBundles` marker, `_create_rsr_monitor_daemon` returns `False`
and leaves the filesystem — in particular the daemon descriptor template —
entirely unchanged. -/
theorem rsr_monitor_no_marker_kexts_noop (c : Consts) (fs : FSState)
    (h : scan_kexts fs.kexts = []) :
    create_rsr_monitor_daemon c fs = (false, fs) := by
  rw [create_rsr_monitor_daemon_eq]
  simp [daemon_needed, h]

/-- Witness for claim C6 on a state with the cryptex image present and two
unmarked kexts (one unparsable, one without the marker key). -/
theorem rsr_monitor_no_marker_kexts_noop_witness :
    scan_kexts ({ installedFS with
        cryptexExists := true,
        kexts := [⟨"Foo.kext", .unparsable⟩, ⟨"Bar.kext", .parsed ["CFBundleIdentifier"]⟩] } : FSState).kexts = [] ∧
    create_rsr_monitor_daemon sampleConsts
        { installedFS with
          cryptexExists := true,
          kexts := [⟨"Foo.kext", .unparsable⟩, ⟨"Bar.kext", .parsed ["CFBundleIdentifier"]⟩] } =
      (false,
        { installedFS with
          cryptexExists := true,
          kexts := [⟨"Foo.kext", .unparsable⟩, ⟨"Bar.kext", .parsed ["CFBundleIdentifier"]⟩] }) :=
  ⟨by decide, rsr_monitor_no_marker_kexts_noop sampleConsts _ (by decide)⟩

/-- Claim C2: when every PatchReport key outside the `Settings`/`Validation`
prefixes maps to `false`, `start_auto_patch` never shows the
patch-confirmation prompt, never runs the elevated patch command, and falls
through to the version-match check (step 5). -/
theorem start_auto_patch_nonactionable_falls_through (env : AutoPatchEnv)
    (hwx : env.wxpythonVariant = true)
    (hupd : env.updateInfo = none)
    (hseal : env.sealIntact = true)
    (hrep : ∀ kv ∈ env.patchReport,
      pyStartsWith "Settings" kv.1 = false → pyStartsWith "Validation" kv.1 = false →
        kv.2 = false) :
    APEffect.patchConfirmPrompt ∉ start_auto_patch env ∧
    APEffect.runElevatedPatch ∉ start_auto_patch env ∧
    APEffect.checkVersions ∈ start_auto_patch env := by
  have hany : env.patchReport.any actionable_entry = false := by
    rw [List.any_eq_false]
    intro kv hkv
    have hk := hrep kv hkv
    unfold actionable_entry
    cases hs : pyStartsWith "Settings" kv.1 <;>
      cases hv : pyStartsWith "Validation" kv.1 <;>
        simp_all
  cases hvm : (determine_if_versions_match env.venv).1 <;>
    simp [start_auto_patch, hwx, hupd, hseal, hany, hvm]

/-- Witness for claim C2 on a report whose only true keys are
`Settings:`/`Validation:`-prefixed. -/
theorem start_auto_patch_nonactionable_falls_through_witness :
    sampleAutoPatchEnv.wxpythonVariant = true ∧
    sampleAutoPatchEnv.updateInfo = none ∧
    sampleAutoPatchEnv.sealIntact = true ∧
    (∀ kv ∈ sampleAutoPatchEnv.patchReport,
      pyStartsWith "Settings" kv.1 = false → pyStartsWith "Validation" kv.1 = false →
        kv.2 = false) ∧
    APEffect.patchConfirmPrompt ∉ start_auto_patch sampleAutoPatchEnv ∧
    APEffect.runElevatedPatch ∉ start_auto_patch sampleAutoPatchEnv ∧
    APEffect.checkVersions ∈ start_auto_patch sampleAutoPatchEnv :=
  ⟨rfl, rfl, rfl, by decide,
    (start_auto_patch_nonactionable_falls_through sampleAutoPatchEnv rfl rfl rfl (by decide)).1,
    (start_auto_patch_nonactionable_falls_through sampleAutoPatchEnv rfl rfl rfl (by decide)).2.1,
    (start_auto_patch_nonactionable_falls_through sampleAutoPatchEnv rfl rfl rfl (by decide)).2.2⟩

/-- Claim C5: running `install_auto_patcher_launch_agent` twice in succession
with the same constants yields the same final filesystem state as one run,
and a pre-existing `/Applications` alias is never overwritten. -/
theorem install_watcher_idempotent (c : Consts) (fs : FSState) :
    (install_auto_patcher_launch_agent c (install_auto_patcher_launch_agent c fs).1).1 =
      (install_auto_patcher_launch_agent c fs).1 ∧
    ∀ t, fs.appAlias = some t →
      ((install_auto_patcher_launch_agent c fs).1).appAlias = some t := by
  by_cases h1 : c.launcherScript = none
  · by_cases h2 : pyStartsWith "/Library/Application Support/Dortania/" c.launcherBinary = false
    · constructor
      · rw [install_state_closed c fs h1 h2, install_state_closed c _ h1 h2]
        by_cases hr : fs.relCwdSupportDirExists <;>
          cases hc : fs.cryptexExists <;>
            cases hk : (scan_kexts fs.kexts).isEmpty <;>
              simp [daemon_needed, rewritten_template, hr, hc, hk]
      · intro t ht
        rw [install_state_closed c fs h1 h2]
        simp [ht]
    · have h2' : pyStartsWith "/Library/Application Support/Dortania/" c.launcherBinary = true := by
        cases hpb : pyStartsWith "/Library/Application Support/Dortania/" c.launcherBinary
        · exact absurd hpb h2
        · rfl
      simp [install_auto_patcher_launch_agent, h1, h2']
  · cases hl : c.launcherScript with
    | none => exact absurd hl h1
    | some s => simp [install_auto_patcher_launch_agent, hl]

/-- Witness for claim C5 on a fully-installed state with an existing alias. -/
theorem install_watcher_idempotent_witness :
    (install_auto_patcher_launch_agent sampleConsts
        (install_auto_patcher_launch_agent sampleConsts installedFS).1).1 =
      (install_auto_patcher_launch_agent sampleConsts installedFS).1 ∧
    installedFS.appAlias = some "/Library/Application Support/Dortania/OpenCore-Patcher.app" ∧
    ((install_auto_patcher_launch_agent sampleConsts installedFS).1).appAlias =
      some "/Library/Application Support/Dortania/OpenCore-Patcher.app" :=
  ⟨(install_watcher_idempotent sampleConsts installedFS).1, rfl,
    (install_watcher_idempotent sampleConsts installedFS).2 _ rfl⟩

/-- Counterexample to claim C1: in a state where the staged bundle already
holds exactly the current source payload and the agent descriptor already has
the right content, `644` permissions and `root:wheel` ownership, a run of the
installer still deletes and recreates both — the delete-then-copy happens
unconditionally, not only when content must change. -/
theorem install_recreates_correct_targets_counterexample :
    installedFS.bundle = some sampleConsts.sourceBundleContent ∧
    installedFS.agentFile = some ⟨sampleConsts.agentSourceContent, 644, "root:wheel"⟩ ∧
    InstallEffect.rmBundle ∈ (install_auto_patcher_launch_agent sampleConsts installedFS).2 ∧
    InstallEffect.dittoBundle ∈ (install_auto_patcher_launch_agent sampleConsts installedFS).2 ∧
    InstallEffect.rmAgentFile ∈ (install_auto_patcher_launch_agent sampleConsts installedFS).2 ∧
    InstallEffect.cpAgentFile ∈ (install_auto_patcher_launch_agent sampleConsts installedFS).2 := by
  decide

/-- Claim C1 as amended: whenever the installer proceeds past its two skip
guards, it unconditionally deletes any existing staged bundle and agent
descriptor and recreates them (regardless of their current content, ownership
or permissions); only the application alias is skipped when already
present. -/
theorem install_unconditional_replace_alias_skip (c : Consts) (fs : FSState)
    (h1 : c.launcherScript = none)
    (h2 : pyStartsWith "/Library/Application Support/Dortania/" c.launcherBinary = false) :
    (fs.bundle.isSome = true →
      InstallEffect.rmBundle ∈ (install_auto_patcher_launch_agent c fs).2) ∧
    InstallEffect.dittoBundle ∈ (install_auto_patcher_launch_agent c fs).2 ∧
    (fs.agentFile.isSome = true →
      InstallEffect.rmAgentFile ∈ (install_auto_patcher_launch_agent c fs).2) ∧
    InstallEffect.cpAgentFile ∈ (install_auto_patcher_launch_agent c fs).2 ∧
    (fs.appAlias.isSome = true →
      InstallEffect.lnAlias ∉ (install_auto_patcher_launch_agent c fs).2) := by
  rw [install_effects_closed c fs h1 h2]
  refine ⟨fun h => ?_, ?_, fun h => ?_, ?_, fun h => ?_⟩
  · simp [h]
  · simp
  · simp [h]
  · simp
  · simp only [h, if_true]
    split_ifs <;> simp

/-- Witness for the amended claim C1 on the fully- and correctly-installed
state: the bundle and agent descriptor are deleted anyway, while the
existing alias is not touched. -/
theorem install_unconditional_replace_alias_skip_witness :
    installedFS.bundle.isSome = true ∧
    installedFS.agentFile.isSome = true ∧
    installedFS.appAlias.isSome = true ∧
    InstallEffect.rmBundle ∈ (install_auto_patcher_launch_agent sampleConsts installedFS).2 ∧
    InstallEffect.lnAlias ∉ (install_auto_patcher_launch_agent sampleConsts installedFS).2 :=
  ⟨rfl, rfl, rfl,
    (install_unconditional_replace_alias_skip sampleConsts installedFS rfl (by decide)).1 rfl,
    (install_unconditional_replace_alias_skip sampleConsts installedFS rfl (by decide)).2.2.2.2 rfl⟩
